import Mathlib

/-!
Verification of the CI trigger-to-matrix resolution engine of TheRock
(`build_tools/github_actions/configure_ci.py` and
`build_tools/github_actions/amdgpu_family_matrix.py`).

The Python code is shallowly embedded below: Python dicts become
association lists (keys are unique in all the source data, and CPython
dict assignment keeps the original key position, which `dictInsert`
mirrors), Python strings become Lean `String`s manipulated through
`List Char`, and statements that can raise (`label.split(":")`
two-element unpacking, `json.loads`, a failed `assert`) become
`Except Unit` values.
-/

set_option autoImplicit false

namespace TheRock

/-! ## Python string primitives -/

/-- Tests whether `a` is a prefix of `b` (used for Python `str.startswith` and substring tests). -/
def listIsPrefixOf : List Char → List Char → Bool
  | [], _ => true
  | _ :: _, [] => false
  | a :: as, b :: bs => a = b && listIsPrefixOf as bs

/-- Tests whether `pat` occurs as a contiguous sublist of the second argument. -/
def listContainsSub (pat : List Char) : List Char → Bool
  | [] => listIsPrefixOf pat []
  | b :: bs => listIsPrefixOf pat (b :: bs) || listContainsSub pat bs

/-- Python `pat in s` (substring containment). -/
def strContains (s pat : String) : Bool :=
  listContainsSub pat.toList s.toList

/-- Split a character list at every occurrence of `c`
(Python `str.split(sep)` with a one-character separator: it keeps empty pieces). -/
def splitOnChar (c : Char) : List Char → List (List Char)
  | [] => [[]]
  | x :: xs =>
    let r := splitOnChar c xs
    if x = c then [] :: r
    else
      match r with
      | [] => [[x]]
      | h :: t => (x :: h) :: t

/-- Python `s.split(sep)` for a one-character separator. -/
def pySplitChar (c : Char) (s : String) : List String :=
  (splitOnChar c s.toList).map String.mk

/-- Python's `_, x = label.split(":")` two-element unpacking: succeeds exactly
when the split yields two pieces, otherwise raises `ValueError`. -/
def splitColonTwo (label : String) : Except Unit (String × String) :=
  match pySplitChar ':' label with
  | [a, b] => .ok (a, b)
  | _ => .error ()

/-- ASCII punctuation, exactly the characters of Python's `string.punctuation`
(codes 33-47, 58-64, 91-96, 123-126). -/
def isPunct (c : Char) : Bool :=
  (33 ≤ c.toNat && c.toNat ≤ 47) || (58 ≤ c.toNat && c.toNat ≤ 64) ||
    (91 ≤ c.toNat && c.toNat ≤ 96) || (123 ≤ c.toNat && c.toNat ≤ 126)

/-- ASCII whitespace as recognized by Python `str.split()` (space and codes 9-13). -/
def isWs (c : Char) : Bool :=
  c.toNat = 32 || (9 ≤ c.toNat && c.toNat ≤ 13)

/-- Python `s.translate(str.maketrans(string.punctuation, " " * len(string.punctuation)))`:
replace every punctuation character with a space. -/
def pyTranslatePunct (s : String) : String :=
  String.mk (s.toList.map (fun c => if isPunct c then ' ' else c))

/-- Group the non-whitespace runs of a character list (empty runs are kept
here and filtered by `pySplitWhitespace`). -/
def wsGroups : List Char → List (List Char)
  | [] => []
  | c :: cs =>
    let r := wsGroups cs
    if isWs c then [] :: r
    else
      match r with
      | [] => [[c]]
      | w :: ws => (c :: w) :: ws

/-- Python `s.split()` with no separator: split on whitespace runs, no empty pieces. -/
def pySplitWhitespace (s : String) : List String :=
  ((wsGroups s.toList).filter (fun g => g ≠ [])).map String.mk

/-- Python `s.lower()` (the source data is ASCII). -/
def pyLower (s : String) : String :=
  String.mk (s.toList.map Char.toLower)

/-! ## Python dict model -/

/-- Python `d[k]` read access / `k in d`: first (unique) matching key. -/
def dictLookup {α : Type} (d : List (String × α)) (k : String) : Option α :=
  match d with
  | [] => none
  | (k', v) :: rest => if k' = k then some v else dictLookup rest k

/-- Python `d[k] = v`: replace the value in place when the key exists
(CPython keeps the key's original position), append otherwise. -/
def dictInsert {α : Type} (d : List (String × α)) (k : String) (v : α) :
    List (String × α) :=
  match d with
  | [] => [(k, v)]
  | (k', v') :: rest =>
    if k' = k then (k, v) :: rest else (k', v') :: dictInsert rest k v

/-- The keys of a dict in iteration order. -/
def dictKeys {α : Type} (d : List (String × α)) : List String :=
  d.map (fun kv => kv.1)

/-! ## Data model (`amdgpu_family_matrix.py`) -/

/-- One per-(family, platform) entry of the family matrices.  Optional dict
keys of the source become `Option` fields (with `none` = key absent) or
`Bool` fields read with a `False` default in the source. -/
structure PlatformInfo where
  test_runs_on : String
  test_runs_on_multi_gpu : Option String := none
  benchmark_runs_on : Option String := none
  test_runs_on_kernel : Option (List (String × String)) := none
  family : String
  bypass_tests_for_releases : Bool := false
  sanity_check_only_for_family : Bool := false
  expect_failure : Option Bool := none
  expect_pytorch_failure : Bool := false
  build_variants : List String
  deriving Repr, DecidableEq

/-- One entry of `all_build_variants[platform]`. -/
structure BuildVariantInfo where
  build_variant_label : String
  build_variant_suffix : String
  build_variant_cmake_preset : String
  expect_failure : Option Bool := none
  deriving Repr, DecidableEq

/-- A family matrix: family key → platform → entry. -/
abbrev Table : Type := List (String × List (String × PlatformInfo))

/-- The three trigger-scoped family matrices (the module-level registry state). -/
structure Tables3 where
  presubmit : Table
  postsubmit : Table
  nightly : Table

/-- The table `all_build_variants` from `amdgpu_family_matrix.py`. -/
def all_build_variants : List (String × List (String × BuildVariantInfo)) :=
  [("linux",
    [("release",
      { build_variant_label := "release", build_variant_suffix := "",
        build_variant_cmake_preset := "" }),
     ("asan",
      { build_variant_label := "asan", build_variant_suffix := "asan",
        build_variant_cmake_preset := "linux-release-asan",
        expect_failure := some true }),
     ("tsan",
      { build_variant_label := "tsan", build_variant_suffix := "tsan",
        build_variant_cmake_preset := "linux-release-tsan",
        expect_failure := some true })]),
   ("windows",
    [("release",
      { build_variant_label := "release", build_variant_suffix := "",
        build_variant_cmake_preset := "windows-release" })])]

/-- The table `amdgpu_family_info_matrix_presubmit`. -/
def amdgpu_family_info_matrix_presubmit : Table :=
  [("gfx94x",
    [("linux",
      { test_runs_on := "Ubuntu-latest",
        test_runs_on_multi_gpu := some "linux-mi325-8gpu-ossci-rocm",
        benchmark_runs_on := some "linux-mi325-8gpu-ossci-rocm",
        family := "gfx94X-dcgpu",
        build_variants := ["release", "asan", "tsan"] })]),
   ("gfx110x",
    [("linux",
      { test_runs_on := "",
        family := "gfx110X-all",
        bypass_tests_for_releases := true,
        build_variants := ["release"],
        sanity_check_only_for_family := true }),
     ("windows",
      { test_runs_on := "Windows-latest",
        family := "gfx110X-all",
        bypass_tests_for_releases := true,
        build_variants := ["release"],
        sanity_check_only_for_family := true })]),
   ("gfx1151",
    [("linux",
      { test_runs_on := "linux-gfx1151-gpu-rocm",
        test_runs_on_kernel := some [("oem", "linux-strix-halo-gpu-rocm-oem")],
        family := "gfx1151",
        bypass_tests_for_releases := true,
        build_variants := ["release"],
        sanity_check_only_for_family := true }),
     ("windows",
      { test_runs_on := "Windows-latest",
        benchmark_runs_on := some "Windows-latest",
        family := "gfx1151",
        build_variants := ["release"] })]),
   ("gfx120x",
    [("linux",
      { test_runs_on := "Ubuntu-latest",
        family := "gfx120X-all",
        bypass_tests_for_releases := true,
        build_variants := ["release"],
        sanity_check_only_for_family := true }),
     ("windows",
      { test_runs_on := "Windows-latest",
        family := "gfx120X-all",
        bypass_tests_for_releases := true,
        build_variants := ["release"] })])]

/-- The table `amdgpu_family_info_matrix_postsubmit`. -/
def amdgpu_family_info_matrix_postsubmit : Table :=
  [("gfx950",
    [("linux",
      { test_runs_on := "Ubuntu-latest",
        family := "gfx950-dcgpu",
        build_variants := ["release", "asan", "tsan"] })])]

/-- The table `amdgpu_family_info_matrix_nightly`. -/
def amdgpu_family_info_matrix_nightly : Table :=
  [("gfx90x",
    [("linux",
      { test_runs_on := "Ubuntu-latest",
        family := "gfx90X-dcgpu",
        sanity_check_only_for_family := true,
        build_variants := ["release"] }),
     ("windows",
      { test_runs_on := "Windows-latest",
        family := "gfx90X-dcgpu",
        build_variants := ["release"],
        expect_pytorch_failure := true })]),
   ("gfx101x",
    [("linux",
      { test_runs_on := "Ubuntu-latest",
        family := "gfx101X-dgpu",
        expect_failure := some true,
        build_variants := ["release"],
        expect_pytorch_failure := true }),
     ("windows",
      { test_runs_on := "Windows-latest",
        family := "gfx101X-dgpu",
        build_variants := ["release"],
        expect_pytorch_failure := true })]),
   ("gfx103x",
    [("linux",
      { test_runs_on := "",
        family := "gfx103X-dgpu",
        build_variants := ["release"],
        sanity_check_only_for_family := true }),
     ("windows",
      { test_runs_on := "",
        family := "gfx103X-dgpu",
        build_variants := ["release"],
        sanity_check_only_for_family := true })]),
   ("gfx1150",
    [("linux",
      { test_runs_on := "",
        family := "gfx1150",
        build_variants := ["release"],
        sanity_check_only_for_family := true }),
     ("windows",
      { test_runs_on := "",
        family := "gfx1150",
        build_variants := ["release"] })]),
   ("gfx1152",
    [("linux",
      { test_runs_on := "",
        family := "gfx1152",
        build_variants := ["release"] }),
     ("windows",
      { test_runs_on := "",
        family := "gfx1152",
        build_variants := ["release"] })]),
   ("gfx1153",
    [("linux",
      { test_runs_on := "",
        family := "gfx1153",
        build_variants := ["release"],
        sanity_check_only_for_family := true }),
     ("windows",
      { test_runs_on := "",
        family := "gfx1153",
        build_variants := ["release"] })])]

/-- The source registry state (the three module-level tables). -/
def sourceTables : Tables3 :=
  ⟨amdgpu_family_info_matrix_presubmit, amdgpu_family_info_matrix_postsubmit,
   amdgpu_family_info_matrix_nightly⟩

/-! ## Registry merge and runner-label overlay (`amdgpu_family_matrix.py`) -/

/-- Merge one table into an accumulator (`result[family_name] = family_config`
over the table's items). -/
def mergeInto (acc t : Table) : Table :=
  t.foldl (fun a kv => dictInsert a kv.1 kv.2) acc

/-- The pure core of `get_all_families_for_trigger_types`: combine the tables
named by `trigger_types` ( unknown names are skipped by the
`if trigger_type in matrix_map` guard). -/
def familiesFor (tbls : Tables3) (trigger_types : List String) : Table :=
  trigger_types.foldl
    (fun acc tt =>
      if tt = "presubmit" then mergeInto acc tbls.presubmit
      else if tt = "postsubmit" then mergeInto acc tbls.postsubmit
      else if tt = "nightly" then mergeInto acc tbls.nightly
      else acc)
    []

/-- The external runner mapping parsed from `ROCM_THEROCK_TEST_RUNNERS`:
family key → platform → runner label. -/
abbrev TestRunnerDict : Type := List (String × List (String × String))

/-- Lookup of `d[key][platform]` in the external mapping. -/
def dictLookup2 (d : TestRunnerDict) (k p : String) : Option String :=
  (dictLookup d k).bind (fun m => dictLookup m p)

/-- The in-place mutation performed by `load_test_runner_from_gh_variables` on
one table: for every (key, platform) cell present in both the table and the
external mapping, set that cell's `test-runs-on` to the mapping's value.
The source iterates the mapping's (unique) keys and mutates the table; cell
by cell this is the map below. -/
def overlayCell (d : TestRunnerDict) (k : String) (pe : String × PlatformInfo) :
    String × PlatformInfo :=
  match dictLookup2 d k pe.1 with
  | some v => (pe.1, { pe.2 with test_runs_on := v })
  | none => pe

/-- The overlay on one whole table. -/
def overlayTable (d : TestRunnerDict) (t : Table) : Table :=
  t.map (fun kp => (kp.1, kp.2.map (overlayCell d kp.1)))

/-- The mutation `load_test_runner_from_gh_variables` applied to the whole registry state. -/
def overlayTables (d : TestRunnerDict) (t : Tables3) : Tables3 :=
  ⟨overlayTable d t.presubmit, overlayTable d t.postsubmit,
   overlayTable d t.nightly⟩

/-- The loader `load_test_runner_from_gh_variables`, with the outcome of
`json.loads(os.getenv("ROCM_THEROCK_TEST_RUNNERS", "{}"))` passed in as
`parsed` (`none` models the string not being valid JSON, in which case
`json.loads` raises `json.JSONDecodeError`; the source has no handler around
it, so the error propagates). -/
def load_test_runner_from_gh_variables (parsed : Option TestRunnerDict)
    (t : Tables3) : Except Unit Tables3 :=
  match parsed with
  | none => .error ()
  | some d => .ok (overlayTables d t)

/-- The merge `get_all_families_for_trigger_types`: when `LOAD_TEST_RUNNERS_FROM_VAR`
is enabled it first runs the overlay load (which can raise on malformed
JSON), then merges the requested tables. -/
def get_all_families_for_trigger_types (load_test_runners_from_var : Bool)
    (parsed : Option TestRunnerDict) (t : Tables3) (trigger_types : List String) :
    Except Unit Table :=
  if load_test_runners_from_var then
    match load_test_runner_from_gh_variables parsed t with
    | .error e => .error e
    | .ok t' => .ok (familiesFor t' trigger_types)
  else
    .ok (familiesFor t trigger_types)

/-! ## Name validation (`filter_known_names`) -/

/-- The call `filter_known_names(requested, "target", target_matrix)`: lowercase each
name and keep it only when it is a key of the lookup table; unknown names are
dropped (with a warning print, which has no effect on the result). -/
def filter_known_names_target (requested : List String) (m : Table) :
    List String :=
  (requested.map pyLower).filter (fun n => (dictLookup m n).isSome)

/-- The call `filter_known_names(requested, "test")`.  Modelled from the spec: the
`test_matrix` of `fetch_test_configurations.py` is not under `src/`, so the
set of known test names is passed in as the list `test_matrix` (§4.4 of the
spec: lowercase, keep the known names, drop the rest with a warning). -/
def filter_known_names_test (requested : List String)
    (test_matrix : List String) : List String :=
  (requested.map pyLower).filter (fun n => test_matrix.contains n)

/-! ## Trigger classification (`determine_long_lived_branch`) -/

/-- The classifier `determine_long_lived_branch`: exact match against `["main", "test-branch"]`
or a `"release/therock-"` prefix. -/
def determine_long_lived_branch (branch_name : String) : Bool :=
  branch_name = "main" || branch_name = "test-branch" ||
    listIsPrefixOf "release/therock-".toList branch_name.toList

/-! ## Selection resolution (`matrix_generator`) -/

/-- The mutable locals of the PR label loop in `matrix_generator`. -/
structure PRState where
  selectedTargets : List String
  selectedTests : List String
  requestedTargets : List String
  requestedTests : List String
  deriving Repr, DecidableEq

/-- The end of one PR-label iteration: the `skip-ci` check (clear both
selected lists and `break`) followed by the `run-all-archs-ci` check
(replace the selected targets with every key across all three tables).
The returned `Bool` is true when the loop `break`s. -/
def pr_label_tail (unionKeys : List String) (st : PRState) (label : String) :
    PRState × Bool :=
  if label = "skip-ci" then
    ({ st with selectedTargets := [], selectedTests := [] }, true)
  else if label = "run-all-archs-ci" then
    ({ st with selectedTargets := unionKeys }, false)
  else (st, false)

/-- One iteration of the `for label in pr_labels` loop.  `unionKeys` is
the key list of `get_all_families_for_trigger_types(["presubmit",
"postsubmit", "nightly"])`.  A `test:` label with a number of colons other
than one raises `ValueError` from the two-element unpacking. -/
def pr_label_step (unionKeys : List String) (st : PRState) (label : String) :
    Except Unit (PRState × Bool) :=
  let st :=
    if strContains label "gfx" then
      { st with requestedTargets :=
          st.requestedTargets ++ [(pySplitChar '-' label).headD ""] }
    else st
  if strContains label "test:" then
    match splitColonTwo label with
    | .error e => .error e
    | .ok p =>
      .ok (pr_label_tail unionKeys
        { st with requestedTests := st.requestedTests ++ [p.2] } label)
  else
    .ok (pr_label_tail unionKeys st label)

/-- The PR label loop (`break` stops the scan). -/
def pr_label_loop (unionKeys : List String) :
    PRState → List String → Except Unit PRState
  | st, [] => .ok st
  | st, label :: rest =>
    match pr_label_step unionKeys st label with
    | .error e => .error e
    | .ok r => if r.2 then .ok r.1 else pr_label_loop unionKeys r.1 rest

/-- The `is_pull_request` branch of `matrix_generator` up to (and including)
the post-loop merges: returns the `selected_target_names` and
`selected_test_names` lists before the final `list(set(...))`
deduplication.  `test_matrix` is the known-test-name list (see
`filter_known_names_test`). -/
def pr_selected (tbls : Tables3) (pr_labels : List String)
    (test_matrix : List String) : Except Unit (List String × List String) :=
  let lookup := familiesFor tbls ["presubmit", "postsubmit", "nightly"]
  let initTargets := dictKeys (familiesFor tbls ["presubmit"])
  let st0 : PRState := ⟨initTargets, [], [], []⟩
  match pr_label_loop (dictKeys lookup) st0 pr_labels with
  | .error e => .error e
  | .ok st =>
    .ok (st.selectedTargets ++ filter_known_names_target st.requestedTargets lookup,
         st.selectedTests ++ filter_known_names_test st.requestedTests test_matrix)

/-- The resolved pull-request selections after the `list(set(...))`
deduplication (stated on lists via `List.dedup`; the claims treat the
result as a set). -/
def pr_resolved (tbls : Tables3) (pr_labels : List String)
    (test_matrix : List String) : Except Unit (List String × List String) :=
  (pr_selected tbls pr_labels test_matrix).map
    (fun p => (p.1.dedup, p.2.dedup))

/-- The workflow_dispatch family-input tokenization of `matrix_generator`:
replace punctuation with spaces, then split on whitespace. -/
def wd_requested_targets (input_gpu_targets : String) : List String :=
  pySplitWhitespace (pyTranslatePunct input_gpu_targets)

/-- The workflow_dispatch family selection: tokenize, then validate each name
independently against the full lookup matrix. -/
def wd_selected_targets (tbls : Tables3) (input_gpu_targets : String) :
    List String :=
  filter_known_names_target (wd_requested_targets input_gpu_targets)
    (familiesFor tbls ["presubmit", "postsubmit", "nightly"])

/-- The `is_push` branch of `matrix_generator`: presubmit (and postsubmit on
a long-lived branch) table keys. -/
def push_targets (tbls : Tables3) (branch_name : String) : List String :=
  if determine_long_lived_branch branch_name then
    dictKeys (familiesFor tbls ["presubmit", "postsubmit"])
  else
    dictKeys (familiesFor tbls ["presubmit"])

/-- The `is_schedule` branch of `matrix_generator`: every key of the merged
presubmit/postsubmit/nightly matrix. -/
def schedule_targets (tbls : Tables3) : List String :=
  dictKeys (familiesFor tbls ["presubmit", "postsubmit", "nightly"])

/-- The `test_type` decision of `main`: `"full"` for scheduled runs,
otherwise `"full"` when a modified path is a submodule path or when any test
label was selected, else `"smoke"`. -/
def compute_test_type (is_schedule : Bool)
    (modified_paths submodule_paths : List String)
    (linux_test_output windows_test_output : List String) : String :=
  if is_schedule then "full"
  else
    let t := "smoke"
    let t :=
      if submodule_paths.any (fun p => modified_paths.contains p) then "full"
      else t
    if linux_test_output ≠ [] ∨ windows_test_output ≠ [] then "full" else t

/-! ## Standard-mode expansion (`matrix_generator`, matrix row construction) -/

/-- A standard-mode matrix row: the merge of a `PlatformInfo` copy (with
`build_variants` deleted) and a `BuildVariantInfo`, plus the computed
`artifact_group`. -/
structure MatrixRow where
  test_runs_on : String
  test_runs_on_multi_gpu : Option String
  benchmark_runs_on : Option String
  test_runs_on_kernel : Option (List (String × String))
  family : String
  bypass_tests_for_releases : Bool
  sanity_check_only_for_family : Bool
  expect_failure : Option Bool
  expect_pytorch_failure : Bool
  build_variant_label : String
  build_variant_suffix : String
  build_variant_cmake_preset : String
  artifact_group : String
  deriving Repr, DecidableEq

/-- Row construction in `matrix_generator`:
`matrix_row = dict(platform_info)`; if the variant notes `expect_failure`,
set it on the row; `del matrix_row["build_variants"]`;
`matrix_row.update(build_variant_info)` (variant keys overwrite); then the
computed `artifact_group` (suffixed only when the variant suffix is a
non-empty, i.e. truthy, string). -/
def make_matrix_row (pi : PlatformInfo) (bvi : BuildVariantInfo) : MatrixRow :=
  let ef1 : Option Bool :=
    if bvi.expect_failure.getD false then some true else pi.expect_failure
  let ef : Option Bool :=
    match bvi.expect_failure with
    | some b => some b
    | none => ef1
  { test_runs_on := pi.test_runs_on
    test_runs_on_multi_gpu := pi.test_runs_on_multi_gpu
    benchmark_runs_on := pi.benchmark_runs_on
    test_runs_on_kernel := pi.test_runs_on_kernel
    family := pi.family
    bypass_tests_for_releases := pi.bypass_tests_for_releases
    sanity_check_only_for_family := pi.sanity_check_only_for_family
    expect_failure := ef
    expect_pytorch_failure := pi.expect_pytorch_failure
    build_variant_label := bvi.build_variant_label
    build_variant_suffix := bvi.build_variant_suffix
    build_variant_cmake_preset := bvi.build_variant_cmake_preset
    artifact_group :=
      pi.family ++
        (if bvi.build_variant_suffix ≠ "" then
          "-" ++ bvi.build_variant_suffix
        else "") }

/-- The body of the kernel-runner substitution: if the family's
`test-runs-on-kernel` map contains the labeled kernel type, replace the
row's runner label with that entry; otherwise blank the runner label (and
the multi-GPU runner label when the platform entry has one). -/
def kernel_runner_subst (pi : PlatformInfo) (kernel_type : String)
    (row : MatrixRow) : MatrixRow :=
  match pi.test_runs_on_kernel with
  | some m =>
    match dictLookup m kernel_type with
    | some v => { row with test_runs_on := v }
    | none =>
      { row with
        test_runs_on := "",
        test_runs_on_multi_gpu :=
          if pi.test_runs_on_multi_gpu.isSome then some ""
          else row.test_runs_on_multi_gpu }
  | none =>
    { row with
      test_runs_on := "",
      test_runs_on_multi_gpu :=
        if pi.test_runs_on_multi_gpu.isSome then some ""
        else row.test_runs_on_multi_gpu }

/-- The `for label in label_options` scan over the combined PR +
workflow_dispatch extra labels: the first label containing `"test_runner"`
is unpacked with `label.split(":")` (raising `ValueError` unless the label
has exactly one colon), the substitution is applied, and the loop
`break`s; every other label is skipped. -/
def apply_kernel_runner_labels (pi : PlatformInfo) (row : MatrixRow) :
    List String → Except Unit MatrixRow
  | [] => .ok row
  | label :: rest =>
    if strContains label "test_runner" then
      match splitColonTwo label with
      | .error e => .error e
      | .ok p => .ok (kernel_runner_subst pi p.2 row)
    else apply_kernel_runner_labels pi row rest

/-- The inner `for build_variant_name in build_variant_names` loop of the
standard expansion: keep only the requested variant, fail (the
`assert isinstance(build_variant_info, dict)`) when the variant has no
entry in the platform's variant table, and apply the label scan per row. -/
def expand_variants (pi : PlatformInfo)
    (platform_build_variants : List (String × BuildVariantInfo))
    (requested_variant : String) (label_options : List String) :
    List String → Except Unit (List MatrixRow)
  | [] => .ok []
  | bv :: rest =>
    if bv = requested_variant then do
      match dictLookup platform_build_variants bv with
      | none => .error ()
      | some bvi => do
        let row ← apply_kernel_runner_labels pi (make_matrix_row pi bvi)
          label_options
        let rows ← expand_variants pi platform_build_variants
          requested_variant label_options rest
        pure (row :: rows)
    else expand_variants pi platform_build_variants requested_variant
      label_options rest

/-- The standard-mode expansion loop of `matrix_generator` over
`unique_target_names`.  A target name missing from the lookup matrix is an
error (`platform in None` raises `TypeError` in the source); a target with
no entry for the requested platform contributes no rows. -/
def expand_standard (lookup : Table)
    (platform_build_variants : List (String × BuildVariantInfo))
    (platform : String) (requested_variant : String)
    (label_options : List String) :
    List String → Except Unit (List MatrixRow)
  | [] => .ok []
  | target :: rest =>
    match dictLookup lookup target with
    | none => .error ()
    | some pset =>
      match dictLookup pset platform with
      | none =>
        expand_standard lookup platform_build_variants platform
          requested_variant label_options rest
      | some pi => do
        let rows ← expand_variants pi platform_build_variants
          requested_variant label_options pi.build_variants
        let more ← expand_standard lookup platform_build_variants platform
          requested_variant label_options rest
        pure (rows ++ more)

/-! ## Multi-arch expansion (`generate_multi_arch_matrix`) -/

/-- One element of `matrix_per_family_json`. -/
structure FamilyEntryMA where
  amdgpu_family : String
  test_runs_on : String
  sanity_check_only_for_family : Bool
  deriving Repr, DecidableEq

/-- One multi-arch matrix entry (one per build variant).  The
`matrix_per_family_json` field keeps the structured list (its
`json.dumps` serialization is boundary output). -/
structure MultiArchRow where
  matrix_per_family_json : List FamilyEntryMA
  dist_amdgpu_families : String
  artifact_group : String
  build_variant_label : String
  build_variant_suffix : String
  build_variant_cmake_preset : String
  expect_failure : Bool
  deriving Repr, DecidableEq

/-- Append a family entry to one variant's family list
(`variant_to_family_info[build_variant_name].append(...)`). -/
def dictAppendTo (d : List (String × List FamilyEntryMA)) (k : String)
    (e : FamilyEntryMA) : List (String × List FamilyEntryMA) :=
  d.map (fun kv => if kv.1 = k then (kv.1, kv.2 ++ [e]) else kv)

/-- The collection state of `generate_multi_arch_matrix`:
`variant_to_family_info` and `variant_info`. -/
abbrev MAState : Type :=
  List (String × List FamilyEntryMA) × List (String × Option BuildVariantInfo)

/-- The body of the matching-variant case in `generate_multi_arch_matrix`'s
inner loop: register the variant (with its `platform_build_variants` entry)
if unseen, then append the family entry unless its display name is already
present. -/
def ma_variant_update (platform_build_variants : List (String × BuildVariantInfo))
    (fam : FamilyEntryMA) (bv : String) (st : MAState) : MAState :=
  let st :=
    if (dictLookup st.1 bv).isNone then
      (st.1 ++ [(bv, [])],
       st.2 ++ [(bv, dictLookup platform_build_variants bv)])
    else st
  let existing := ((dictLookup st.1 bv).getD []).map
    (fun f => f.amdgpu_family)
  if existing.contains fam.amdgpu_family then st
  else (dictAppendTo st.1 bv fam, st.2)

/-- The `for build_variant_name in platform_info.get("build_variants", [])`
loop of `generate_multi_arch_matrix` for one target (variants other than the
requested one are filtered out by the `continue`). -/
def ma_process_variants
    (platform_build_variants : List (String × BuildVariantInfo))
    (requested_variant : String) (fam : FamilyEntryMA) :
    List String → MAState → MAState
  | [], st => st
  | bv :: rest, st =>
    if bv = requested_variant then
      ma_process_variants platform_build_variants requested_variant fam rest
        (ma_variant_update platform_build_variants fam bv st)
    else
      ma_process_variants platform_build_variants requested_variant fam rest st

/-- The `for target_name in target_names` collection loop of
`generate_multi_arch_matrix`: targets with no entry for the platform are
skipped. -/
def ma_collect (lookup : Table)
    (platform_build_variants : List (String × BuildVariantInfo))
    (platform : String) (requested_variant : String) :
    List String → MAState → MAState
  | [], st => st
  | target :: rest, st =>
    match dictLookup lookup target with
    | none =>
      ma_collect lookup platform_build_variants platform requested_variant
        rest st
    | some pset =>
      match dictLookup pset platform with
      | none =>
        ma_collect lookup platform_build_variants platform requested_variant
          rest st
      | some pi =>
        ma_collect lookup platform_build_variants platform requested_variant
          rest
          (ma_process_variants platform_build_variants requested_variant
            ⟨pi.family, pi.test_runs_on, pi.sanity_check_only_for_family⟩
            pi.build_variants st)

/-- The matrix row built for one variant group (`matrix_row = {...}` in
`generate_multi_arch_matrix`; `or "release"` is Python string truthiness). -/
def mkMultiArchRow (info : BuildVariantInfo) (fams : List FamilyEntryMA) :
    MultiArchRow :=
  { matrix_per_family_json := fams
    dist_amdgpu_families :=
      String.intercalate ";" (fams.map (fun f => f.amdgpu_family))
    artifact_group :=
      "multi-arch-" ++
        (if info.build_variant_suffix ≠ "" then info.build_variant_suffix
        else "release")
    build_variant_label := info.build_variant_label
    build_variant_suffix := info.build_variant_suffix
    build_variant_cmake_preset := info.build_variant_cmake_preset
    expect_failure := info.expect_failure.getD false }

/-- The output loop of `generate_multi_arch_matrix`: one entry per collected
variant whose `variant_info` value is truthy (`if not info: continue`). -/
def ma_rows (vinfo : List (String × Option BuildVariantInfo)) :
    List (String × List FamilyEntryMA) → List MultiArchRow
  | [] => []
  | (vn, fams) :: rest =>
    match dictLookup vinfo vn with
    | some (some info) => mkMultiArchRow info fams :: ma_rows vinfo rest
    | _ => ma_rows vinfo rest

/-- The function `generate_multi_arch_matrix(target_names, lookup_matrix, platform,
platform_build_variants, base_args)` with
`requested_variant = base_args["build_variant"]`. -/
def generate_multi_arch_matrix (lookup : Table)
    (platform_build_variants : List (String × BuildVariantInfo))
    (platform : String) (target_names : List String)
    (requested_variant : String) : List MultiArchRow :=
  let st := ma_collect lookup platform_build_variants platform
    requested_variant target_names ([], [])
  ma_rows st.2 st.1

/-! ## Shared concrete shorthands -/

/-- The full lookup matrix used for pull_request and workflow_dispatch
resolution over the source registry. -/
def sourceLookupAll : Table :=
  familiesFor sourceTables ["presubmit", "postsubmit", "nightly"]

/-- Every `PlatformInfo` entry appearing in the source registry. -/
def sourcePlatformInfos : List PlatformInfo :=
  (amdgpu_family_info_matrix_presubmit ++ amdgpu_family_info_matrix_postsubmit
      ++ amdgpu_family_info_matrix_nightly).flatMap
    (fun kv => kv.2.map (fun pe => pe.2))

/-- Every `BuildVariantInfo` entry appearing in `all_build_variants`. -/
def sourceBuildVariantInfos : List BuildVariantInfo :=
  all_build_variants.flatMap (fun kv => kv.2.map (fun pe => pe.2))

/-- The variant-level `expect_failure` flag (with its `False` defaults) for a
variant name of a platform variant table. -/
def variantEF (platform_build_variants : List (String × BuildVariantInfo))
    (bv : String) : Bool :=
  match dictLookup platform_build_variants bv with
  | some info => info.expect_failure.getD false
  | none => false

/-- The family-level `expect_failure` flag of a (family key, platform) cell of
the full source lookup matrix. -/
def familyEF (k p : String) : Bool :=
  match dictLookup sourceLookupAll k with
  | some pset =>
    match dictLookup pset p with
    | some pi => pi.expect_failure.getD false
    | none => false
  | none => false

/-- The variant table `all_build_variants["linux"]`. -/
def linux_build_variants : List (String × BuildVariantInfo) :=
  (dictLookup all_build_variants "linux").getD []

/-- The `PlatformInfo` of (`gfx101x`, `linux`) in the nightly table (the only
registry cell with a family-level `expect_failure` flag). -/
def piGfx101xLinux : PlatformInfo :=
  { test_runs_on := "Ubuntu-latest",
    family := "gfx101X-dgpu",
    expect_failure := some true,
    build_variants := ["release"],
    expect_pytorch_failure := true }

/-- The `PlatformInfo` of (`gfx1151`, `linux`) in the presubmit table (the only
registry cell with a `test-runs-on-kernel` map). -/
def piGfx1151Linux : PlatformInfo :=
  { test_runs_on := "linux-gfx1151-gpu-rocm",
    test_runs_on_kernel := some [("oem", "linux-strix-halo-gpu-rocm-oem")],
    family := "gfx1151",
    bypass_tests_for_releases := true,
    build_variants := ["release"],
    sanity_check_only_for_family := true }

/-- The entry `all_build_variants["linux"]["release"]`. -/
def bviLinuxRelease : BuildVariantInfo :=
  { build_variant_label := "release", build_variant_suffix := "",
    build_variant_cmake_preset := "" }

/-! ## Helper lemmas -/

theorem mem_dictKeys_dictInsert {α : Type} (d : List (String × α))
    (k a : String) (v : α) :
    a ∈ dictKeys (dictInsert d k v) ↔ a = k ∨ a ∈ dictKeys d := by
  induction d with
  | nil => simp [dictInsert, dictKeys]
  | cons kv rest ih =>
    obtain ⟨k', v'⟩ := kv
    by_cases h : k' = k
    · subst h
      simp [dictInsert, dictKeys]
    · simp [dictInsert, dictKeys, h] at ih ⊢
      tauto

theorem mem_dictKeys_mergeInto (acc t : Table) (a : String) :
    a ∈ dictKeys (mergeInto acc t) ↔ a ∈ dictKeys acc ∨ a ∈ dictKeys t := by
  induction t generalizing acc with
  | nil => simp [mergeInto, dictKeys]
  | cons kv rest ih =>
    show a ∈ dictKeys (mergeInto (dictInsert acc kv.1 kv.2) rest) ↔ _
    rw [ih]
    rw [mem_dictKeys_dictInsert]
    simp [dictKeys]
    tauto

theorem dictLookup_isSome_iff {α : Type} (d : List (String × α)) (k : String) :
    (dictLookup d k).isSome = true ↔ k ∈ dictKeys d := by
  induction d with
  | nil => simp [dictLookup, dictKeys]
  | cons kv rest ih =>
    obtain ⟨k', v'⟩ := kv
    by_cases h : k' = k
    · subst h
      simp [dictLookup, dictKeys]
    · simp [dictLookup, dictKeys, h, ih]
      tauto

theorem dictLookup_eq_some_mem {α : Type} (d : List (String × α))
    (k : String) (v : α) (h : dictLookup d k = some v) : (k, v) ∈ d := by
  induction d with
  | nil => simp [dictLookup] at h
  | cons kv rest ih =>
    obtain ⟨k', v'⟩ := kv
    by_cases hk : k' = k
    · subst hk
      simp [dictLookup] at h
      subst h
      exact List.mem_cons_self _ _
    · simp [dictLookup, hk] at h
      exact List.mem_cons_of_mem _ (ih h)

theorem mem_filter_known_names_target (req : List String) (m : Table)
    (x : String) (hx : x ∈ filter_known_names_target req m) :
    x ∈ dictKeys m := by
  simp only [filter_known_names_target, List.mem_filter] at hx
  exact (dictLookup_isSome_iff m x).1 hx.2

theorem familiesFor_presubmit_eq (tbls : Tables3) :
    familiesFor tbls ["presubmit"] = mergeInto [] tbls.presubmit := rfl

theorem familiesFor_pre_post_eq (tbls : Tables3) :
    familiesFor tbls ["presubmit", "postsubmit"] =
      mergeInto (mergeInto [] tbls.presubmit) tbls.postsubmit := rfl

theorem familiesFor_all_eq (tbls : Tables3) :
    familiesFor tbls ["presubmit", "postsubmit", "nightly"] =
      mergeInto (mergeInto (mergeInto [] tbls.presubmit) tbls.postsubmit)
        tbls.nightly := rfl

theorem splitOnChar_length (c : Char) (l : List Char) :
    (splitOnChar c l).length = l.count c + 1 := by
  induction l with
  | nil => rfl
  | cons x xs ih =>
    by_cases h : x = c
    · subst h
      simp [splitOnChar, List.count_cons, ih]
    · cases hr : splitOnChar c xs with
      | nil =>
        rw [hr] at ih
        simp at ih
      | cons g gs =>
        rw [hr] at ih
        simp only [List.length_cons] at ih
        simp [splitOnChar, h, hr, List.count_cons]
        omega

theorem kernel_runner_subst_expect_failure (pi : PlatformInfo) (k : String)
    (row : MatrixRow) :
    (kernel_runner_subst pi k row).expect_failure = row.expect_failure := by
  unfold kernel_runner_subst
  split
  · split
    · rfl
    · rfl
  · rfl

theorem apply_kernel_runner_labels_expect_failure (pi : PlatformInfo)
    (labels : List String) (row row' : MatrixRow)
    (h : apply_kernel_runner_labels pi row labels = .ok row') :
    row'.expect_failure = row.expect_failure := by
  induction labels with
  | nil =>
    simp [apply_kernel_runner_labels] at h
    rw [← h]
  | cons label rest ih =>
    by_cases hc : strContains label "test_runner"
    · simp only [apply_kernel_runner_labels, hc, if_pos] at h
      cases hs : splitColonTwo label with
      | error e => rw [hs] at h; exact absurd h (by simp)
      | ok p =>
        rw [hs] at h
        simp at h
        rw [← h]
        exact kernel_runner_subst_expect_failure pi p.2 row
    · simp only [apply_kernel_runner_labels, hc, if_neg] at h
      exact ih h

theorem make_matrix_row_expect_failure (pi : PlatformInfo)
    (bvi : BuildVariantInfo) :
    (make_matrix_row pi bvi).expect_failure =
      (match bvi.expect_failure with
       | some b => some b
       | none => pi.expect_failure) := by
  cases hb : bvi.expect_failure with
  | none => simp [make_matrix_row, hb]
  | some b => simp [make_matrix_row, hb]

theorem source_variant_no_explicit_false :
    ∀ bvi ∈ sourceBuildVariantInfos, bvi.expect_failure ≠ some false := by
  decide

theorem overlayCell_idem (d : TestRunnerDict) (k : String)
    (pe : String × PlatformInfo) :
    overlayCell d k (overlayCell d k pe) = overlayCell d k pe := by
  unfold overlayCell
  cases h : dictLookup2 d k pe.1 with
  | none => simp [h]
  | some v => simp [h]

theorem overlayTable_idem (d : TestRunnerDict) (t : Table) :
    overlayTable d (overlayTable d t) = overlayTable d t := by
  unfold overlayTable
  rw [List.map_map]
  apply List.map_congr_left
  intro kp _
  simp only [Function.comp_apply]
  rw [List.map_map]
  apply congrArg
  apply List.map_congr_left
  intro pe _
  exact overlayCell_idem d kp.1 pe

theorem pr_label_tail_spec (uk : List String) (st : PRState) (l : String)
    (hl : l ≠ "skip-ci") :
    (pr_label_tail uk st l).2 = false ∧
    (pr_label_tail uk st l).1.selectedTargets =
      (if l = "run-all-archs-ci" then uk else st.selectedTargets) := by
  unfold pr_label_tail
  by_cases hr : l = "run-all-archs-ci" <;> simp [hl, hr]

theorem pr_label_step_ok (uk : List String) (st : PRState) (l : String)
    (r : PRState × Bool) (hl : l ≠ "skip-ci")
    (h : pr_label_step uk st l = .ok r) :
    r.2 = false ∧ r.1.selectedTargets =
      (if l = "run-all-archs-ci" then uk else st.selectedTargets) := by
  unfold pr_label_step at h
  by_cases hg : strContains l "gfx" <;>
    by_cases ht : strContains l "test:" <;>
    simp only [hg, ht, ite_true, ite_false, Bool.false_eq_true, if_true,
      if_false] at h
  case pos =>
    cases hs : splitColonTwo l with
    | error e => rw [hs] at h; simp at h
    | ok p =>
      rw [hs] at h
      simp only [Except.ok.injEq] at h
      subst h
      exact pr_label_tail_spec uk _ l hl
  case neg =>
    simp only [Except.ok.injEq] at h
    subst h
    exact pr_label_tail_spec uk _ l hl
  case pos =>
    cases hs : splitColonTwo l with
    | error e => rw [hs] at h; simp at h
    | ok p =>
      rw [hs] at h
      simp only [Except.ok.injEq] at h
      subst h
      exact pr_label_tail_spec uk _ l hl
  case neg =>
    simp only [Except.ok.injEq] at h
    subst h
    exact pr_label_tail_spec uk _ l hl

theorem pr_label_loop_selectedTargets (uk : List String) :
    ∀ (labels : List String) (st st' : PRState),
      "skip-ci" ∉ labels →
      pr_label_loop uk st labels = .ok st' →
      st'.selectedTargets =
        (if "run-all-archs-ci" ∈ labels then uk else st.selectedTargets) := by
  intro labels
  induction labels with
  | nil =>
    intro st st' _ h
    simp only [pr_label_loop, Except.ok.injEq] at h
    subst h
    simp
  | cons l rest ih =>
    intro st st' hn h
    have hl : l ≠ "skip-ci" := by
      intro e
      exact hn (by simp [e])
    have hrest : "skip-ci" ∉ rest := fun m => hn (List.mem_cons_of_mem _ m)
    cases hstep : pr_label_step uk st l with
    | error e =>
      rw [pr_label_loop, hstep] at h
      simp at h
    | ok r =>
      obtain ⟨h2, hsel⟩ := pr_label_step_ok uk st l r hl hstep
      rw [pr_label_loop, hstep] at h
      simp only [h2, Bool.false_eq_true, if_false] at h
      have hres := ih r.1 st' hrest h
      rw [hres, hsel]
      by_cases hR : l = "run-all-archs-ci"
      · simp [hR]
      · have hR2 : ¬("run-all-archs-ci" = l) := fun e => hR e.symm
        simp [hR, hR2, List.mem_cons]

theorem ma_variant_update_snd
    (pbv : List (String × BuildVariantInfo)) (fam : FamilyEntryMA)
    (bv : String) (st : MAState) :
    (ma_variant_update pbv fam bv st).2 = st.2 ∨
    (ma_variant_update pbv fam bv st).2 =
      st.2 ++ [(bv, dictLookup pbv bv)] := by
  unfold ma_variant_update
  by_cases h1 : (dictLookup st.1 bv).isNone <;>
    simp only [h1, ite_true, ite_false, Bool.false_eq_true, if_true, if_false] <;>
    split
  · right; rfl
  · right; rfl
  · left; rfl
  · left; rfl

theorem ma_process_variants_vinfo
    (pbv : List (String × BuildVariantInfo)) (req : String)
    (fam : FamilyEntryMA) :
    ∀ (bvs : List String) (st : MAState),
      (∀ e ∈ st.2, e.1 = req ∧ e.2 = dictLookup pbv req) →
      ∀ e ∈ (ma_process_variants pbv req fam bvs st).2,
        e.1 = req ∧ e.2 = dictLookup pbv req := by
  intro bvs
  induction bvs with
  | nil => intro st hst e he; exact hst e he
  | cons bv rest ih =>
    intro st hst
    by_cases hbv : bv = req
    · subst hbv
      simp only [ma_process_variants, ite_true, if_true]
      apply ih
      intro e he
      rcases ma_variant_update_snd pbv fam bv st with hu | hu
      · rw [hu] at he
        exact hst e he
      · rw [hu] at he
        rcases List.mem_append.1 he with h' | h'
        · exact hst e h'
        · simp at h'
          subst h'
          exact ⟨rfl, rfl⟩
    · simp only [ma_process_variants, hbv, ite_false, if_false]
      exact ih st hst

theorem ma_collect_vinfo (lookup : Table)
    (pbv : List (String × BuildVariantInfo)) (platform req : String) :
    ∀ (targets : List String) (st : MAState),
      (∀ e ∈ st.2, e.1 = req ∧ e.2 = dictLookup pbv req) →
      ∀ e ∈ (ma_collect lookup pbv platform req targets st).2,
        e.1 = req ∧ e.2 = dictLookup pbv req := by
  intro targets
  induction targets with
  | nil => intro st hst e he; exact hst e he
  | cons t rest ih =>
    intro st hst
    cases hlt : dictLookup lookup t with
    | none =>
      simp only [ma_collect, hlt]
      exact ih st hst
    | some pset =>
      cases hlp : dictLookup pset platform with
      | none =>
        simp only [ma_collect, hlt, hlp]
        exact ih st hst
      | some pi =>
        simp only [ma_collect, hlt, hlp]
        exact ih _ (ma_process_variants_vinfo pbv req _ pi.build_variants st hst)

theorem ma_rows_expect_failure
    (pbv : List (String × BuildVariantInfo)) (req : String)
    (vinfo : List (String × Option BuildVariantInfo))
    (hv : ∀ e ∈ vinfo, e.1 = req ∧ e.2 = dictLookup pbv req) :
    ∀ (vfi : List (String × List FamilyEntryMA)) (r : MultiArchRow),
      r ∈ ma_rows vinfo vfi → r.expect_failure = variantEF pbv req := by
  intro vfi
  induction vfi with
  | nil => intro r hr; simp [ma_rows] at hr
  | cons kv rest ih =>
    obtain ⟨vn, fams⟩ := kv
    intro r hr
    unfold ma_rows at hr
    cases hlk : dictLookup vinfo vn with
    | none =>
      rw [hlk] at hr
      exact ih r hr
    | some oi =>
      rw [hlk] at hr
      cases oi with
      | none => exact ih r hr
      | some info =>
        rcases List.mem_cons.1 hr with h' | h'
        · subst h'
          have hmem := dictLookup_eq_some_mem vinfo vn (some info) hlk
          have := (hv _ hmem).2
          show info.expect_failure.getD false = variantEF pbv req
          unfold variantEF
          rw [← this]
        · exact ih r h'

/-! ## Claim theorems -/

/-- C1 (code bug): the claim says a PR label list containing `skip-ci` always
resolves to empty family and test selections.  The code's own comment says
"we skip all builds and tests", but `skip-ci` only clears the
`selected_*` lists - the `requested_*` lists accumulated from labels
processed before it survive the `break` and are merged in after the loop.
At the failing input `["gfx94x-build", "skip-ci"]` the resolved family
selection is `["gfx94x"]`, not empty. -/
theorem c1_skip_ci_after_gfx_label_nonempty :
    pr_resolved sourceTables ["gfx94x-build", "skip-ci"] [] =
      .ok (["gfx94x"], []) ∧ (["gfx94x"] : List String) ≠ [] :=
  ⟨rfl, by decide⟩

/-- C2 (counterexample): the claim says a malformed runner-override mapping
is treated as "no override" and resolution completes normally.  In the code
`json.loads` is uncaught, so with the overlay enabled and a mapping string
that is not valid JSON (modelled by the parse outcome `none`, e.g. for the
string "not json"), `get_all_families_for_trigger_types` aborts with the
decode error instead of returning the static registry. -/
theorem c2_malformed_override_cex :
    get_all_families_for_trigger_types true none sourceTables ["presubmit"] =
      .error () := rfl

/-- C2 (amended): with the overlay enabled, a malformed runner-override
mapping aborts resolution with the uncaught `json.JSONDecodeError`; the run
completes (with the overlay applied) only when the mapping parses. -/
theorem c2_malformed_override_aborts :
    ∀ (tbls : Tables3) (trigger_types : List String),
      get_all_families_for_trigger_types true none tbls trigger_types =
        .error () ∧
      ∀ d : TestRunnerDict,
        get_all_families_for_trigger_types true (some d) tbls trigger_types =
          .ok (familiesFor (overlayTables d tbls) trigger_types) :=
  fun _ _ => ⟨rfl, fun _ => rfl⟩

/-- C3 (counterexample): the claim says a job row's `expect_failure` is the
OR of the family-level and variant-level flags in either expansion mode.
In multi-arch mode the row for (`gfx101x`, linux, release) has
`expect_failure = false` although the family-level flag of that cell is
true: `generate_multi_arch_matrix` reads the flag from the variant info
only. -/
theorem c3_multi_arch_family_flag_ignored_cex :
    ((generate_multi_arch_matrix sourceLookupAll linux_build_variants "linux"
        ["gfx101x"] "release").map (fun r => r.expect_failure)) = [false] ∧
      familyEF "gfx101x" "linux" = true :=
  ⟨rfl, rfl⟩

/-- C3 (amended): in standard mode every job row (built by
`make_matrix_row` and then passed through the kernel-runner label scan) has
`expect_failure` equal to the OR of the family-level and variant-level
flags, for every entry of the source registry and variant tables (none of
which carries an explicit `False` variant flag); in multi-arch mode the
row's `expect_failure` equals the variant-level flag alone. -/
theorem c3_expect_failure_or :
    (∀ (pi : PlatformInfo) (bvi : BuildVariantInfo) (labels : List String)
       (row : MatrixRow),
       pi ∈ sourcePlatformInfos → bvi ∈ sourceBuildVariantInfos →
       apply_kernel_runner_labels pi (make_matrix_row pi bvi) labels =
         .ok row →
       row.expect_failure.getD false =
         (pi.expect_failure.getD false || bvi.expect_failure.getD false)) ∧
    (∀ (lookup : Table) (pbv : List (String × BuildVariantInfo))
       (platform requested : String) (targets : List String)
       (r : MultiArchRow),
       r ∈ generate_multi_arch_matrix lookup pbv platform targets requested →
       r.expect_failure = variantEF pbv requested) := by
  constructor
  · intro pi bvi labels row hpi hbvi happ
    have hef := apply_kernel_runner_labels_expect_failure pi labels _ row happ
    rw [hef, make_matrix_row_expect_failure]
    have hnf := source_variant_no_explicit_false bvi hbvi
    cases hb : bvi.expect_failure with
    | none => simp
    | some b =>
      cases b
      · exact absurd hb hnf
      · simp
  · intro lookup pbv platform requested targets r hr
    simp only [generate_multi_arch_matrix] at hr
    have hinv := ma_collect_vinfo lookup pbv platform requested targets
      ([], []) (by intro e he; simp at he)
    exact ma_rows_expect_failure pbv requested _ hinv _ r hr

/-- C3 witness: the amended standard-mode statement applied to the
(`gfx101x`, linux) registry entry and the linux release variant with no
extra labels. -/
theorem c3_expect_failure_or_witness :
    (make_matrix_row piGfx101xLinux bviLinuxRelease).expect_failure.getD false
      = (piGfx101xLinux.expect_failure.getD false ||
          bviLinuxRelease.expect_failure.getD false) :=
  c3_expect_failure_or.1 piGfx101xLinux bviLinuxRelease [] _ (by decide)
    (by decide) rfl

/-- C4 (counterexample): the claim says any PR label list containing
`run-all-archs-ci` resolves to the union of the keys of the three tables.  With
labels `["run-all-archs-ci", "skip-ci"]` the later `skip-ci` clears the
selection, so the resolved family selection is empty while the union of
keys is not. -/
theorem c4_run_all_skip_ci_cex :
    pr_resolved sourceTables ["run-all-archs-ci", "skip-ci"] [] =
      .ok ([], []) ∧
    dictKeys sourceLookupAll ≠ [] :=
  ⟨rfl, by decide⟩

/-- C4 (amended): for a PR label list that contains `run-all-archs-ci`, does
not contain `skip-ci`, and whose label processing completes without a
`ValueError`, the resolved family selection equals (as a set) the union of
the keys of the presubmit, postsubmit and nightly tables. -/
theorem c4_run_all_archs_amended :
    ∀ (tbls : Tables3) (labels test_matrix targets tests : List String),
      "run-all-archs-ci" ∈ labels →
      "skip-ci" ∉ labels →
      pr_selected tbls labels test_matrix = .ok (targets, tests) →
      targets.toFinset =
        (dictKeys
          (familiesFor tbls ["presubmit", "postsubmit", "nightly"])).toFinset := by
  intro tbls labels tm targets tests hmem hnskip h
  simp only [pr_selected] at h
  cases hloop : pr_label_loop
      (dictKeys (familiesFor tbls ["presubmit", "postsubmit", "nightly"]))
      ⟨dictKeys (familiesFor tbls ["presubmit"]), [], [], []⟩ labels with
  | error e =>
    rw [hloop] at h
    simp at h
  | ok st =>
    rw [hloop] at h
    simp only [Except.ok.injEq, Prod.mk.injEq] at h
    obtain ⟨ht, _⟩ := h
    subst ht
    have hsel := pr_label_loop_selectedTargets _ labels _ st hnskip hloop
    rw [if_pos hmem] at hsel
    rw [List.toFinset_append, hsel]
    apply Finset.union_eq_left.mpr
    intro x hx
    rw [List.mem_toFinset] at hx ⊢
    exact mem_filter_known_names_target _ _ x hx

/-- C4 witness: the amended statement applied to the source registry and the
label list `["run-all-archs-ci"]`. -/
theorem c4_run_all_archs_amended_witness :
    (["gfx94x", "gfx110x", "gfx1151", "gfx120x", "gfx950", "gfx90x",
      "gfx101x", "gfx103x", "gfx1150", "gfx1152", "gfx1153"] :
        List String).toFinset =
      (dictKeys
        (familiesFor sourceTables ["presubmit", "postsubmit", "nightly"])).toFinset :=
  c4_run_all_archs_amended sourceTables ["run-all-archs-ci"] []
    ["gfx94x", "gfx110x", "gfx1151", "gfx120x", "gfx950", "gfx90x",
      "gfx101x", "gfx103x", "gfx1150", "gfx1152", "gfx1153"] []
    (by decide) (by decide) rfl

/-- C5 (confirmed): a scheduled run always gets `test_type = "full"`
independent of the modified-path and submodule-path inputs, and its selected
family set is the union of the keys of the presubmit, postsubmit and nightly
tables. -/
theorem c5_schedule_full_sweep :
    ∀ (tbls : Tables3)
      (modified_paths submodule_paths linuxT windowsT : List String),
      compute_test_type true modified_paths submodule_paths linuxT windowsT =
        "full" ∧
      (schedule_targets tbls).toFinset =
        ((dictKeys tbls.presubmit).toFinset ∪
          (dictKeys tbls.postsubmit).toFinset ∪
          (dictKeys tbls.nightly).toFinset) := by
  intro tbls m s lt wt
  refine ⟨rfl, ?_⟩
  apply Finset.ext
  intro a
  simp only [schedule_targets, familiesFor_all_eq, List.mem_toFinset,
    Finset.mem_union]
  rw [mem_dictKeys_mergeInto, mem_dictKeys_mergeInto, mem_dictKeys_mergeInto]
  simp [dictKeys]

/-- C6 (confirmed): the workflow_dispatch family input `"gfx94X ,|.gfx1201"`
tokenizes (punctuation to spaces, whitespace split, lowercasing) to
`["gfx94x", "gfx1201"]`; validation filters each name independently against
the full lookup table, keeping the known `gfx94x` and dropping the unknown
`gfx1201` without any error. -/
theorem c6_wd_tokenization :
    wd_requested_targets "gfx94X ,|.gfx1201" = ["gfx94X", "gfx1201"] ∧
    (wd_requested_targets "gfx94X ,|.gfx1201").map pyLower =
      ["gfx94x", "gfx1201"] ∧
    wd_selected_targets sourceTables "gfx94X ,|.gfx1201" =
      (["gfx94x", "gfx1201"].filter
        (fun n => (dictLookup sourceLookupAll n).isSome)) ∧
    wd_selected_targets sourceTables "gfx94X ,|.gfx1201" = ["gfx94x"] ∧
    (dictLookup sourceLookupAll "gfx94x").isSome = true ∧
    (dictLookup sourceLookupAll "gfx1201").isSome = false :=
  ⟨rfl, rfl, rfl, rfl, rfl, rfl⟩

/-- C7 (confirmed): for every registry state, a push on a long-lived branch
selects a superset of the families selected by a push on a non-long-lived
branch (presubmit ∪ postsubmit ⊇ presubmit). -/
theorem c7_long_lived_superset :
    ∀ (tbls : Tables3) (b1 b2 k : String),
      determine_long_lived_branch b1 = true →
      determine_long_lived_branch b2 = false →
      k ∈ push_targets tbls b2 → k ∈ push_targets tbls b1 := by
  intro tbls b1 b2 k h1 h2 hk
  simp only [push_targets, h1, h2, Bool.false_eq_true, if_true, if_false,
    ite_true, ite_false] at hk ⊢
  rw [familiesFor_presubmit_eq] at hk
  rw [familiesFor_pre_post_eq]
  exact (mem_dictKeys_mergeInto _ _ _).2 (Or.inl hk)

/-- C7 witness: `gfx94x` (selected by a push on the non-long-lived branch
`feature`) is selected by a push on `main`. -/
theorem c7_long_lived_superset_witness :
    "gfx94x" ∈ push_targets sourceTables "main" :=
  c7_long_lived_superset sourceTables "main" "feature" "gfx94x" (by decide)
    (by decide) (by decide)

/-- C8 (confirmed): applying the runner-override overlay twice with the same
external mapping yields the same registry state as applying it once. -/
theorem c8_overlay_idempotent :
    ∀ (d : TestRunnerDict) (t : Tables3),
      overlayTables d (overlayTables d t) = overlayTables d t := by
  intro d t
  cases t with
  | mk p q n =>
    simp only [overlayTables]
    rw [overlayTable_idem, overlayTable_idem, overlayTable_idem]

/-- C9 (confirmed): in the per-row label scan, only the first label
containing `test_runner` affects the row - the result is independent of the
labels after it - and its effect is the kernel-runner substitution: replace
the runner label when the family's kernel map contains the labeled kernel
type, otherwise blank the runner label (and the multi-GPU runner label when
present). -/
theorem c9_first_test_runner_label_wins :
    (∀ (pre post : List String) (label : String) (pi : PlatformInfo)
       (row : MatrixRow) (a k : String),
       (∀ x ∈ pre, strContains x "test_runner" = false) →
       strContains label "test_runner" = true →
       splitColonTwo label = .ok (a, k) →
       apply_kernel_runner_labels pi row (pre ++ label :: post) =
         .ok (kernel_runner_subst pi k row)) ∧
    (∀ (pi : PlatformInfo) (k : String) (row : MatrixRow)
       (m : List (String × String)) (v : String),
       pi.test_runs_on_kernel = some m → dictLookup m k = some v →
       kernel_runner_subst pi k row = { row with test_runs_on := v }) ∧
    (∀ (pi : PlatformInfo) (k : String) (row : MatrixRow),
       (pi.test_runs_on_kernel.bind (fun m => dictLookup m k)) = none →
       kernel_runner_subst pi k row =
         { row with
           test_runs_on := "",
           test_runs_on_multi_gpu :=
             if pi.test_runs_on_multi_gpu.isSome then some ""
             else row.test_runs_on_multi_gpu }) := by
  refine ⟨?_, ?_, ?_⟩
  · intro pre
    induction pre with
    | nil =>
      intro post label pi row a k _ hc hs
      simp [apply_kernel_runner_labels, hc, hs]
    | cons x xs ih =>
      intro post label pi row a k hpre hc hs
      have hx := hpre x (List.mem_cons_self x xs)
      simp only [List.cons_append, apply_kernel_runner_labels, hx,
        Bool.false_eq_true, if_false, ite_false]
      exact ih post label pi row a k
        (fun y hy => hpre y (List.mem_cons_of_mem _ hy)) hc hs
  · intro pi k row m v hm hv
    simp [kernel_runner_subst, hm, hv]
  · intro pi k row hnone
    cases hker : pi.test_runs_on_kernel with
    | none => simp [kernel_runner_subst, hker]
    | some m =>
      rw [hker] at hnone
      simp at hnone
      simp [kernel_runner_subst, hker, hnone]

/-- C9 witness: the first-match statement applied to the (`gfx1151`, linux)
registry entry, the label list `["hello", "test_runner:oem",
"test_runner:zzz"]` and the release-variant row. -/
theorem c9_first_test_runner_label_wins_witness :
    apply_kernel_runner_labels piGfx1151Linux
        (make_matrix_row piGfx1151Linux bviLinuxRelease)
        (["hello"] ++ "test_runner:oem" :: ["test_runner:zzz"]) =
      .ok (kernel_runner_subst piGfx1151Linux "oem"
        (make_matrix_row piGfx1151Linux bviLinuxRelease)) :=
  c9_first_test_runner_label_wins.1 ["hello"] ["test_runner:zzz"]
    "test_runner:oem" piGfx1151Linux _ "test_runner" "oem" (by decide)
    (by decide) rfl

/-- C10 (confirmed): label parsing by two-element unpacking of
`label.split(":")` is total exactly for labels with one colon.  A PR label
`test:a:b` makes `matrix_generator` raise an unhandled `ValueError`
(whatever the test matrix), and so does an extra label `test_runner`
without a colon in the per-row label scan. -/
theorem c10_label_split_colon_totality :
    (∀ test_matrix : List String,
       pr_selected sourceTables ["test:a:b"] test_matrix = .error ()) ∧
    (∀ (pi : PlatformInfo) (row : MatrixRow),
       apply_kernel_runner_labels pi row ["test_runner"] = .error ()) ∧
    (∀ label : String,
       (∃ p, splitColonTwo label = .ok p) ↔ label.toList.count ':' = 1) := by
  refine ⟨fun _ => rfl, fun _ _ => rfl, ?_⟩
  intro label
  have hlen : (pySplitChar ':' label).length = label.toList.count ':' + 1 := by
    simp [pySplitChar, splitOnChar_length]
  constructor
  · rintro ⟨p, hp⟩
    unfold splitColonTwo at hp
    cases hxs : pySplitChar ':' label with
    | nil =>
      rw [hxs] at hp
      simp at hp
    | cons x t =>
      cases t with
      | nil =>
        rw [hxs] at hp
        simp at hp
      | cons y t2 =>
        cases t2 with
        | nil =>
          rw [hxs] at hlen
          simp only [List.length_cons, List.length_nil] at hlen
          omega
        | cons z t3 =>
          rw [hxs] at hp
          simp at hp
  · intro hc
    rw [hc] at hlen
    cases hxs : pySplitChar ':' label with
    | nil =>
      rw [hxs] at hlen
      simp at hlen
    | cons x t =>
      cases t with
      | nil =>
        rw [hxs] at hlen
        simp at hlen
      | cons y t2 =>
        cases t2 with
        | nil => exact ⟨(x, y), by simp [splitColonTwo, hxs]⟩
        | cons z t3 =>
          rw [hxs] at hlen
          simp only [List.length_cons, List.length_nil] at hlen
          omega

end TheRock
